import Mathlib

/-!
Verification of the archiving reader shim (src/common/archivingReader.c and
archivingReader.h): a thin coordination layer over a streaming-archive
library. The C code issues a fixed sequence of native library calls; we embed
it as a function over an environment recording the result each native call
would return, together with the trace of native calls the shim issues.
-/

/-- The success status of the underlying archive library (`ARCHIVE_OK` = 0). -/
def ARCHIVE_OK : Int := 0

/-- The fatal-error status of the underlying archive library (-30). -/
def ARCHIVE_FATAL : Int := -30

/-- One native archive-library call issued by the shim. Handles are modelled
as natural numbers standing for the pointers the library returns. -/
inductive NativeCall where
  | writeNew
  | setFormatPaxRestricted (a : Nat)
  | writeOpen2 (a : Nat) (openerPresent : Bool)
  | getBytesInLastBlock (a : Nat)
  | setBytesInLastBlock (a : Nat) (n : Int)
  | readDiskNew
  | readDiskOpen (d : Nat)
  | entryNew
  | readNextHeader2 (d : Nat) (e : Nat)
  | writeHeader (a : Nat) (e : Nat)
  | entryFree (e : Nat)
  | readClose (d : Nat)
  | readFree (d : Nat)
  | writeClose (a : Nat)
  | writeFree (a : Nat)
deriving DecidableEq

/-- A field of the C struct `archive_cookie`. The C code declares the struct
on the stack and assigns the pointer fields only on the full-success path, so
a field is either never assigned (indeterminate) or holds a pointer. -/
inductive CField where
  | unset
  | ptr (h : Nat)
deriving DecidableEq

/-- The result record of `archive_init` (struct `archive_cookie` in
archivingReader.h): an error code and the three handle fields. -/
structure archive_cookie where
  err : Int
  a : CField
  disk : CField
  entry : CField
deriving DecidableEq

/-- Results of the native calls `archive_init` makes, and the pointer values
the allocating calls return. The shim does not interpret these; it only
compares the error codes against `ARCHIVE_OK`. -/
structure LibEnv where
  setFormatErr : Int
  open2Err : Int
  bytesInLastBlock : Int
  diskOpenErr : Int
  nextHeaderErr : Int
  aHandle : Nat
  diskHandle : Nat
  entryHandle : Nat
deriving DecidableEq

/-- Embedding of `archive_init` (archivingReader.c): allocate a write handle,
configure the PAX-restricted format, open the writer with a NULL opener and
`buffer_write` as the writer callback, apply the last-block sentinel fix,
allocate and open the disk reader, allocate an entry and read the next
header. Each failing step stores its raw error code in `err` and returns at
once; the pointer fields of the returned cookie are assigned only on the
full-success path, exactly as in the C source, so on the failure paths they
are `CField.unset`. The sink callback is taken as a parameter but, as in the
source, `archive_init` itself never invokes it. Returns the cookie and the
trace of native calls issued. -/
def archive_init (env : LibEnv) (sink : Nat → Int) : archive_cookie × List NativeCall :=
  if env.setFormatErr ≠ ARCHIVE_OK then
    ({ err := env.setFormatErr, a := CField.unset, disk := CField.unset, entry := CField.unset },
     [NativeCall.writeNew, NativeCall.setFormatPaxRestricted env.aHandle])
  else if env.open2Err ≠ ARCHIVE_OK then
    ({ err := env.open2Err, a := CField.unset, disk := CField.unset, entry := CField.unset },
     [NativeCall.writeNew, NativeCall.setFormatPaxRestricted env.aHandle,
      NativeCall.writeOpen2 env.aHandle false])
  else if env.diskOpenErr ≠ ARCHIVE_OK then
    ({ err := env.diskOpenErr, a := CField.unset, disk := CField.unset, entry := CField.unset },
     [NativeCall.writeNew, NativeCall.setFormatPaxRestricted env.aHandle,
      NativeCall.writeOpen2 env.aHandle false,
      NativeCall.getBytesInLastBlock env.aHandle] ++
     (if env.bytesInLastBlock = -1 then [NativeCall.setBytesInLastBlock env.aHandle 1] else []) ++
     [NativeCall.readDiskNew, NativeCall.readDiskOpen env.diskHandle])
  else if env.nextHeaderErr ≠ ARCHIVE_OK then
    ({ err := env.nextHeaderErr, a := CField.unset, disk := CField.unset, entry := CField.unset },
     [NativeCall.writeNew, NativeCall.setFormatPaxRestricted env.aHandle,
      NativeCall.writeOpen2 env.aHandle false,
      NativeCall.getBytesInLastBlock env.aHandle] ++
     (if env.bytesInLastBlock = -1 then [NativeCall.setBytesInLastBlock env.aHandle 1] else []) ++
     [NativeCall.readDiskNew, NativeCall.readDiskOpen env.diskHandle,
      NativeCall.entryNew, NativeCall.readNextHeader2 env.diskHandle env.entryHandle])
  else
    ({ err := ARCHIVE_OK, a := CField.ptr env.aHandle, disk := CField.ptr env.diskHandle,
       entry := CField.ptr env.entryHandle },
     [NativeCall.writeNew, NativeCall.setFormatPaxRestricted env.aHandle,
      NativeCall.writeOpen2 env.aHandle false,
      NativeCall.getBytesInLastBlock env.aHandle] ++
     (if env.bytesInLastBlock = -1 then [NativeCall.setBytesInLastBlock env.aHandle 1] else []) ++
     [NativeCall.readDiskNew, NativeCall.readDiskOpen env.diskHandle,
      NativeCall.entryNew, NativeCall.readNextHeader2 env.diskHandle env.entryHandle])

/-- Results of the native calls `archive_close` makes. The C code discards
every one of them. -/
structure CloseEnv where
  readCloseErr : Int
  readFreeErr : Int
  writeCloseErr : Int
  writeFreeErr : Int
deriving DecidableEq

/-- Embedding of `archive_close` (archivingReader.c): free the entry, close
and free the disk reader, close and free the writer, ignore every native
result, and return `ARCHIVE_OK`. Returns the status and the trace of native
calls issued. -/
def archive_close (cenv : CloseEnv) (a disk entry : Nat) : Int × List NativeCall :=
  (ARCHIVE_OK,
   [NativeCall.entryFree entry, NativeCall.readClose disk, NativeCall.readFree disk,
    NativeCall.writeClose a, NativeCall.writeFree a])

/-- Modelled from the spec: which native calls push bytes through the sink
callback. The underlying archive library is not under src/; per sections 4.2
and 6 of the spec, opening the writer invokes only the opener callback (the
shim passes a NULL opener, so nothing is invoked), serializing a header and
the closing flush emit bytes, and format configuration, block-size calls and
the whole disk-read side never touch the sink. -/
def nativeEmitsSinkBytes : NativeCall → Bool
  | NativeCall.writeOpen2 _ openerPresent => openerPresent
  | NativeCall.writeHeader _ _ => true
  | NativeCall.writeClose _ => true
  | _ => false

/-- Modelled from the spec: per section 4.2, the entry header appears in the
byte stream the sink receives exactly when `WriteEntryHeader` (the native
header-serialization call, not under src/) is issued; so a trace whose sink
stream begins with a valid entry header must contain a header write. -/
def headerEmitted (tr : List NativeCall) : Bool :=
  tr.any (fun c => match c with | NativeCall.writeHeader _ _ => true | _ => false)

/-- Does this native call set the last-block size of the writer? -/
def setsLastBlock : NativeCall → Bool
  | NativeCall.setBytesInLastBlock _ _ => true
  | _ => false

/-- Does this native call read the next header from the disk reader? -/
def readsNextHeader : NativeCall → Bool
  | NativeCall.readNextHeader2 _ _ => true
  | _ => false

/-- The session record of the spec (section 3): a status and three optional
handles, absent when the construction step that produces them did not
complete. -/
structure Session where
  status : Int
  encoder : Option Nat
  cursor : Option Nat
  entry : Option Nat
deriving DecidableEq

/-- Modelled from the spec: the session-level `Close` entry point (the Go
wrapper around `archive_close`, not under src/). Per sections 4.3, 7 and 8 it
releases, in order, the entry descriptor, then the cursor (read-close and
free), then the encoder (write-close and free), skipping absent handles,
nulls out every handle in the session, and always returns success. -/
def session_close (s : Session) : Session × Int × List NativeCall :=
  ({ status := s.status, encoder := none, cursor := none, entry := none },
   ARCHIVE_OK,
   (match s.entry with | some e => [NativeCall.entryFree e] | none => []) ++
   (match s.cursor with | some d => [NativeCall.readClose d, NativeCall.readFree d] | none => []) ++
   (match s.encoder with | some a => [NativeCall.writeClose a, NativeCall.writeFree a] | none => []))

/-- Does this native call release only a handle the session holds? Release
calls must name a present handle; non-release calls do not belong in a
teardown trace. -/
def callTouchesPresent (s : Session) : NativeCall → Bool
  | NativeCall.entryFree e => s.entry = some e
  | NativeCall.readClose d => s.cursor = some d
  | NativeCall.readFree d => s.cursor = some d
  | NativeCall.writeClose a => s.encoder = some a
  | NativeCall.writeFree a => s.encoder = some a
  | _ => false

/-- An environment in which every native call succeeds. -/
def allOkEnv : LibEnv :=
  { setFormatErr := 0, open2Err := 0, bytesInLastBlock := 0, diskOpenErr := 0,
    nextHeaderErr := 0, aHandle := 1, diskHandle := 2, entryHandle := 3 }

/-- An environment in which opening the disk reader fails fatally. -/
def envDiskFail : LibEnv :=
  { setFormatErr := 0, open2Err := 0, bytesInLastBlock := 0, diskOpenErr := ARCHIVE_FATAL,
    nextHeaderErr := 0, aHandle := 1, diskHandle := 2, entryHandle := 3 }

/-- An environment in which reading the next header fails fatally. -/
def envHeaderFail : LibEnv :=
  { setFormatErr := 0, open2Err := 0, bytesInLastBlock := 0, diskOpenErr := 0,
    nextHeaderErr := ARCHIVE_FATAL, aHandle := 1, diskHandle := 2, entryHandle := 3 }

/-- An environment in which opening the writer against the sink fails
fatally. -/
def envOpenFail : LibEnv :=
  { setFormatErr := 0, open2Err := ARCHIVE_FATAL, bytesInLastBlock := 0, diskOpenErr := 0,
    nextHeaderErr := 0, aHandle := 1, diskHandle := 2, entryHandle := 3 }

/-- A sink callback that accepts everything. -/
def zeroSink : Nat → Int := fun n => Int.ofNat n

/-- A sink callback that always reports failure. -/
def negSink : Nat → Int := fun _ => -1

/-- A concrete close environment. -/
def closeEnv0 : CloseEnv :=
  { readCloseErr := 0, readFreeErr := 0, writeCloseErr := 0, writeFreeErr := 0 }

/-- C9: for every input, `archive_close` returns `ARCHIVE_OK`: close never
fails, and the native close and free results (the `CloseEnv`) are discarded,
never propagated to the caller. -/
theorem archive_close_always_ok (cenv : CloseEnv) (a disk entry : Nat) :
    (archive_close cenv a disk entry).1 = ARCHIVE_OK := rfl

/-- C8: `archive_close` issues its native release calls in exactly this fixed
order: free the entry descriptor, then close and free the disk reader, then
close and free the writer. -/
theorem archive_close_release_order (cenv : CloseEnv) (a disk entry : Nat) :
    (archive_close cenv a disk entry).2 =
      [NativeCall.entryFree entry, NativeCall.readClose disk, NativeCall.readFree disk,
       NativeCall.writeClose a, NativeCall.writeFree a] := rfl

/-- C1: the code contradicts the spec invariant. With every step before the
disk open succeeding and the disk open failing (a nonexistent path), the
writer was allocated, format-configured and opened against the sink, and the
disk reader was allocated, yet the returned cookie stores none of them: the
`a`, `disk` and `entry` fields are never assigned on any failure path, so the
constructed encoder handle is not populated for the caller to release (it
leaks) and the unreached fields are indeterminate rather than absent. -/
theorem archive_init_partial_failure_leaks :
    (archive_init envDiskFail zeroSink).1.err = ARCHIVE_FATAL ∧
    NativeCall.writeNew ∈ (archive_init envDiskFail zeroSink).2 ∧
    NativeCall.writeOpen2 1 false ∈ (archive_init envDiskFail zeroSink).2 ∧
    NativeCall.readDiskNew ∈ (archive_init envDiskFail zeroSink).2 ∧
    (archive_init envDiskFail zeroSink).1.a = CField.unset ∧
    (archive_init envDiskFail zeroSink).1.disk = CField.unset ∧
    (archive_init envDiskFail zeroSink).1.entry = CField.unset := by decide

/-- C3 counterexample: two runs that fail at different steps (the first never
reaches the next-header read, the second fails exactly there) return the same
status value, so the failing steps are not distinguishable from the status. -/
theorem failing_step_status_collision :
    (archive_init envDiskFail zeroSink).1.err = (archive_init envHeaderFail zeroSink).1.err ∧
    ((archive_init envDiskFail zeroSink).2.any readsNextHeader) = false ∧
    ((archive_init envHeaderFail zeroSink).2.any readsNextHeader) = true := by decide

/-- C3 amended: the status of `archive_init` is the raw error code returned
by the first failing native call (first failure wins), with no per-step
translation: steps are distinguishable only when the native codes happen to
differ. -/
theorem archive_init_err_first_failure (env : LibEnv) (sink : Nat → Int) :
    (archive_init env sink).1.err =
      (if env.setFormatErr ≠ ARCHIVE_OK then env.setFormatErr
       else if env.open2Err ≠ ARCHIVE_OK then env.open2Err
       else if env.diskOpenErr ≠ ARCHIVE_OK then env.diskOpenErr
       else if env.nextHeaderErr ≠ ARCHIVE_OK then env.nextHeaderErr
       else ARCHIVE_OK) := by
  unfold archive_init
  split_ifs <;> rfl

/-- C10: `archive_init` never pushes bytes to the sink: no native call it
issues emits sink bytes — the writer is opened with an absent opener callback
and no header write is issued inside init. -/
theorem archive_init_no_sink_output (env : LibEnv) (sink : Nat → Int) :
    ((archive_init env sink).2.any nativeEmitsSinkBytes) = false ∧
    headerEmitted (archive_init env sink).2 = false := by
  unfold archive_init
  split_ifs <;> simp [nativeEmitsSinkBytes, headerEmitted]

/-- C7: the writer last-block size is set (and set only to 1) exactly when
init reaches the block-size query (format configuration and sink open
succeeded) and the query returns the sentinel -1; and it happens before any
sink write, since no call of init emits sink bytes at all. -/
theorem archive_init_last_block_fix (env : LibEnv) (sink : Nat → Int) :
    ((archive_init env sink).2.any setsLastBlock)
        = (decide (env.setFormatErr = ARCHIVE_OK) && decide (env.open2Err = ARCHIVE_OK)
            && decide (env.bytesInLastBlock = -1)) ∧
    ((archive_init env sink).2.all (fun c =>
        match c with
        | NativeCall.setBytesInLastBlock _ n => decide (n = 1)
        | _ => true)) = true ∧
    ((archive_init env sink).2.any nativeEmitsSinkBytes) = false := by
  unfold archive_init
  split_ifs <;> simp_all [setsLastBlock, nativeEmitsSinkBytes]

/-- C2 counterexample: with every native step succeeding (a valid, readable
path), init followed immediately by close returns OK with all three handles
present, but the combined trace contains no header write, so the sink stream
cannot begin with a valid entry header for the path metadata — init and close
alone never serialize the entry. -/
theorem init_close_no_header_counterexample :
    (archive_init allOkEnv zeroSink).1.err = ARCHIVE_OK ∧
    (archive_init allOkEnv zeroSink).1.a = CField.ptr 1 ∧
    (archive_init allOkEnv zeroSink).1.disk = CField.ptr 2 ∧
    (archive_init allOkEnv zeroSink).1.entry = CField.ptr 3 ∧
    headerEmitted ((archive_init allOkEnv zeroSink).2 ++ (archive_close closeEnv0 1 2 3).2)
      = false := by decide

/-- C2 amended: when every native step succeeds, `archive_init` returns
status OK with the encoder, disk cursor and entry all populated; and the
trace of init followed by close contains no entry-header write — the header
for the path metadata is emitted only by the caller-driven write phase
between init and close, not by init and close themselves. -/
theorem archive_init_success_populates_no_header (env : LibEnv) (sink : Nat → Int)
    (cenv : CloseEnv) (a d e : Nat)
    (h1 : env.setFormatErr = ARCHIVE_OK) (h2 : env.open2Err = ARCHIVE_OK)
    (h3 : env.diskOpenErr = ARCHIVE_OK) (h4 : env.nextHeaderErr = ARCHIVE_OK) :
    (archive_init env sink).1.err = ARCHIVE_OK ∧
    (archive_init env sink).1.a = CField.ptr env.aHandle ∧
    (archive_init env sink).1.disk = CField.ptr env.diskHandle ∧
    (archive_init env sink).1.entry = CField.ptr env.entryHandle ∧
    headerEmitted ((archive_init env sink).2 ++ (archive_close cenv a d e).2) = false := by
  unfold archive_init archive_close headerEmitted
  simp only [h1, h2, h3, h4]
  split_ifs <;> simp_all

/-- C2 witness: the amended statement at a concrete all-success environment. -/
theorem archive_init_success_populates_no_header_witness :
    (archive_init allOkEnv zeroSink).1.err = ARCHIVE_OK ∧
    (archive_init allOkEnv zeroSink).1.a = CField.ptr allOkEnv.aHandle ∧
    (archive_init allOkEnv zeroSink).1.disk = CField.ptr allOkEnv.diskHandle ∧
    (archive_init allOkEnv zeroSink).1.entry = CField.ptr allOkEnv.entryHandle ∧
    headerEmitted ((archive_init allOkEnv zeroSink).2 ++ (archive_close closeEnv0 1 2 3).2)
      = false :=
  archive_init_success_populates_no_header allOkEnv zeroSink closeEnv0 1 2 3
    (by decide) (by decide) (by decide) (by decide)

/-- C6 counterexample: for a sink callback that always reports failure (here
it returns -1 on every call), init over an otherwise healthy environment
returns status OK — not a sink-open error — and no native call of init emits
bytes to the sink, so the failing sink is never consulted during init. -/
theorem negative_sink_init_ok_counterexample :
    negSink 0 < 0 ∧
    (archive_init allOkEnv negSink).1.err = ARCHIVE_OK ∧
    ((archive_init allOkEnv negSink).2.any nativeEmitsSinkBytes) = false := by decide

/-- C6 amended: `archive_init` never consults the sink callback — its result
is identical for any two sinks — so a sink that always returns a negative
value does not make init fail: when the native steps succeed, init returns
OK, and the sink failure can only surface at the first actual write, outside
init. -/
theorem archive_init_ignores_sink (env : LibEnv) (sink1 sink2 : Nat → Int)
    (h1 : env.setFormatErr = ARCHIVE_OK) (h2 : env.open2Err = ARCHIVE_OK)
    (h3 : env.diskOpenErr = ARCHIVE_OK) (h4 : env.nextHeaderErr = ARCHIVE_OK) :
    archive_init env sink1 = archive_init env sink2 ∧
    (archive_init env sink1).1.err = ARCHIVE_OK ∧
    ((archive_init env sink1).2.any nativeEmitsSinkBytes) = false := by
  refine ⟨rfl, ?_, ?_⟩ <;>
    · unfold archive_init
      simp only [h1, h2, h3, h4]
      split_ifs <;> simp_all [nativeEmitsSinkBytes]

/-- C6 witness: the amended statement at the always-failing sink and an
all-success environment. -/
theorem archive_init_ignores_sink_witness :
    archive_init allOkEnv negSink = archive_init allOkEnv zeroSink ∧
    (archive_init allOkEnv negSink).1.err = ARCHIVE_OK ∧
    ((archive_init allOkEnv negSink).2.any nativeEmitsSinkBytes) = false :=
  archive_init_ignores_sink allOkEnv negSink zeroSink
    (by decide) (by decide) (by decide) (by decide)

/-- C4: the first session close nulls out every handle of the returned
session, and a second close on that returned session issues no native release
call at all, so it cannot touch freed memory. -/
theorem session_close_nulls_handles (s : Session) :
    (session_close s).1.encoder = none ∧ (session_close s).1.cursor = none ∧
    (session_close s).1.entry = none ∧
    (session_close (session_close s).1).2.2 = [] :=
  ⟨rfl, rfl, rfl, rfl⟩

/-- C5: session close tolerates any partially-populated session: it always
returns success, and every native call of its teardown trace releases a
handle the session actually holds — absent handles are skipped, never
touched. -/
theorem session_close_tolerates_partial (s : Session) :
    (session_close s).2.1 = ARCHIVE_OK ∧
    ((session_close s).2.2.all (callTouchesPresent s)) = true := by
  refine ⟨rfl, ?_⟩
  rcases s with ⟨st, enc, cur, ent⟩
  rcases enc with _ | a <;> rcases cur with _ | d <;> rcases ent with _ | e <;>
    simp [session_close, callTouchesPresent]
